import Mathlib

/-!
# Verification of the WebXR product configurator core

A shallow embedding of the configurator's state/material binder
(`ConfiguratorEngine`), its texture cache, the orchestrator's
URL-parameter application (`XRUpgradeConfigurator.applyURLParameters`),
the device-capability prober (`DeviceDetection`) and the engine's event
bus, together with theorems about the testable properties of the system.

Modelling conventions:
* The external model-viewing component is represented by an oracle `Ext`
  giving, per URL, the loaded-texture handle (`none` models a rejected
  load) and, per handle, whether the slot-assignment call succeeds
  (`false` models a thrown exception in the viewer).
* JavaScript exceptions are modelled with `Except`; an `async` function
  that never leaks an exception is a total Lean function.
* `changeColor` and `changeStrap` are `async` and are invoked without
  `await` by `reset()` and `applyURLParameters()`.  Each such call is
  split into its synchronous prefix (everything up to the first `await`)
  and its continuation.  The settled semantics runs all synchronous
  prefixes in program order and then the continuations.  The final
  selection state is independent of the continuation interleaving
  because, after the synchronous phase, only `changeColor`'s
  continuation writes to the selection state and the texture oracle is
  deterministic per URL; the fixed order chosen below (color
  continuation first) is one of the admissible microtask orders.
-/

set_option autoImplicit false

deriving instance DecidableEq for Except

namespace Configurator

/-- The three texture resource paths of a `Color` entry
(`textures.primary`, `textures.accent`, `textures.roughness`). -/
structure ColorTextures where
  primary : String
  accent : String
  roughness : String
  deriving Repr, DecidableEq

/-- A color entry of the configuration document. -/
structure Color where
  id : String
  name : String
  textures : ColorTextures
  deriving Repr, DecidableEq

/-- A strap entry: `texture = none` models a strap object without a
`texture` property (the dynamic, match-the-color strap uses id
`"selected"` and carries no fixed texture). -/
structure Strap where
  id : String
  name : String
  texture : Option String
  deriving Repr, DecidableEq

/-- An environment entry (purely cosmetic backdrop). -/
structure Environment where
  id : String
  name : String
  background : String
  deriving Repr, DecidableEq

/-- `config.product.materials`: model-specific names of the three
logical material slots. -/
structure MaterialNames where
  primary : String
  secondary : String
  accent : String
  deriving Repr, DecidableEq

/-- `config.product` (the fields the engine reads). -/
structure Product where
  name : String
  modelPath : String
  materials : MaterialNames
  deriving Repr, DecidableEq

/-- The alternative `config.defaults` record consulted by the fallback
chains `config.defaultColor || config.defaults?.color` etc. -/
structure DefaultsRec where
  color : Option String
  strap : Option String
  environment : Option String
  deriving Repr, DecidableEq

/-- The configuration document (immutable after load). -/
structure Config where
  product : Product
  colors : List Color
  straps : List Strap
  environments : List Environment
  defaultColor : Option String
  defaultStrap : Option String
  defaultEnvironment : Option String
  defaults : Option DefaultsRec
  deriving Repr, DecidableEq

/-- The engine's mutable selection state (`this.currentState`). -/
structure SelectionState where
  color : String
  strap : String
  environment : String
  deriving Repr, DecidableEq

/-- Resolved material references (`this.materials`); set by
`setupMaterialReferences` either to all three or not at all. -/
structure Materials where
  primary : String
  secondary : String
  accent : String
  deriving Repr, DecidableEq

/-- Engine state: configuration, selection state, texture cache
(`this.textureCache`, an insert-only map from URL to handle), the
resolved materials and the `isReady` flag. -/
structure Engine where
  config : Config
  currentState : SelectionState
  textureCache : List (String × Nat)
  materials : Option Materials
  isReady : Bool
  deriving Repr, DecidableEq

/-- Events emitted via `notifyListeners`.  `errorEv` carries the
`type`, `message` and stringified `details` fields of the payload;
`resetEv` carries the live state at emission time; `initDone` is the
source's `initialized` event. -/
inductive Event where
  | colorChanged (id : String)
  | strapChanged (id : String)
  | environmentChanged (id : String)
  | errorEv (etype : String) (message : String) (details : String)
  | resetEv (color strap environment : String)
  | initDone
  deriving Repr, DecidableEq

/-- Oracle for the external model-viewing component:
`createTexture url` is the handle the viewer resolves for `url`
(`none` = the load rejects); `setTexture t` tells whether the external
slot-assignment call on argument `t` returns normally. -/
structure Ext where
  createTexture : String → Option Nat
  setTexture : Option Nat → Bool

/-- Map lookup on the texture cache (JS `Map.has` / `Map.get`). -/
def cacheLookup (cache : List (String × Nat)) (url : String) : Option Nat :=
  match cache with
  | [] => none
  | (k, v) :: rest => if k == url then some v else cacheLookup rest url

/-- Result of one cache access: the texture (or `null`), the updated
cache, and the URLs for which an underlying load was triggered. -/
structure TexResult where
  tex : Option Nat
  cache : List (String × Nat)
  loads : List String
  deriving Repr, DecidableEq

/-- `preloadTexture(url)`: cached handle if present; otherwise requests
a new handle, stores it on success, and returns `null` on failure
without storing anything. -/
def preloadTexture (ext : Ext) (cache : List (String × Nat)) (url : String) : TexResult :=
  match cacheLookup cache url with
  | some t => ⟨some t, cache, []⟩
  | none =>
    match ext.createTexture url with
    | some t => ⟨some t, (url, t) :: cache, [url]⟩
    | none => ⟨none, cache, [url]⟩

/-- `getTexture(url)`: cached handle if present, else
`preloadTexture(url)`. -/
def getTexture (ext : Ext) (cache : List (String × Nat)) (url : String) : TexResult :=
  match cacheLookup cache url with
  | some t => ⟨some t, cache, []⟩
  | none => preloadTexture ext cache url

/-- Result of a texture-application routine: whether it returned
normally or threw, the updated cache, and the triggered loads. -/
structure ApplyResult where
  res : Except String Unit
  cache : List (String × Nat)
  loads : List String

/-- `applyColorTextures(color)`: throws when the material references
are not set (a `TypeError` on `this.materials.primary` in the source,
or its explicit `Materials not ready` throw); otherwise resolves the
three textures through the cache and performs the four external
slot-assignment calls (primary and secondary base color, accent base
color, primary metallic-roughness — the secondary and accent slots both
receive the accent texture).  The slot contents live in the external
viewer; the model records the call outcomes, cache and loads. -/
def applyColorTextures (ext : Ext) (mats : Option Materials)
    (cache : List (String × Nat)) (color : Color) : ApplyResult :=
  match mats with
  | none => ⟨.error "Materials not ready", cache, []⟩
  | some _ =>
    let r1 := getTexture ext cache color.textures.primary
    let r2 := getTexture ext r1.cache color.textures.accent
    let r3 := getTexture ext r2.cache color.textures.roughness
    if ext.setTexture r1.tex && ext.setTexture r2.tex &&
        ext.setTexture r2.tex && ext.setTexture r3.tex then
      ⟨.ok (), r3.cache, r1.loads ++ r2.loads ++ r3.loads⟩
    else
      ⟨.error "Texture apply failed", r3.cache, r1.loads ++ r2.loads ++ r3.loads⟩

/-- `applyStrapConfiguration(strapId)`: throws when the accent material
reference is missing; for the `"selected"` id derives the texture from
the currently selected color's accent texture, otherwise uses the
strap's own fixed texture; with no resolvable texture it only logs a
warning and returns normally. -/
def applyStrapConfiguration (ext : Ext) (cfg : Config) (mats : Option Materials)
    (st : SelectionState) (cache : List (String × Nat)) (strapId : String) : ApplyResult :=
  match mats with
  | none => ⟨.error "Accent material not ready", cache, []⟩
  | some _ =>
    let strapTexture : Option String :=
      if strapId == "selected" then
        match cfg.colors.find? (fun c => c.id == st.color) with
        | some c => some c.textures.accent
        | none => none
      else
        match cfg.straps.find? (fun s => s.id == strapId) with
        | some strap => strap.texture
        | none => none
    match strapTexture with
    | some url =>
      let r := getTexture ext cache url
      if ext.setTexture r.tex then ⟨.ok (), r.cache, r.loads⟩
      else ⟨.error "Texture apply failed", r.cache, r.loads⟩
    | none => ⟨.ok (), cache, []⟩

/-- What remains of a `changeColor` call after its synchronous prefix:
either it already returned (unknown id) or its continuation is pending
with the saved previous color and the found color entry. -/
inductive ColorPending where
  | idle
  | started (prevColor : String) (color : Color)
  deriving Repr, DecidableEq

/-- Synchronous prefix of `changeColor(colorId)`: unknown ids log and
return; otherwise the state is updated optimistically and
`colorChanged` fires before any texture I/O. -/
def syncChangeColor (eng : Engine) (colorId : String) :
    Engine × List Event × ColorPending :=
  match eng.config.colors.find? (fun c => c.id == colorId) with
  | none => (eng, [], .idle)
  | some color =>
    ({ eng with currentState := { eng.currentState with color := colorId } },
     [.colorChanged colorId], .started eng.currentState.color color)

/-- Continuation of `changeColor`: applies the color textures, forces
the strap axis to `"selected"` and re-applies the strap texture,
emitting `strapChanged`; on failure rolls the color back, re-emits
`colorChanged` with the old id and emits an `error` event.  Cache
mutations made before a failure persist. -/
def contChangeColor (ext : Ext) (eng : Engine) : ColorPending → Engine × List Event × List String
  | .idle => (eng, [], [])
  | .started prev color =>
    let r1 := applyColorTextures ext eng.materials eng.textureCache color
    match r1.res with
    | .error e =>
      ({ eng with currentState := { eng.currentState with color := prev },
                  textureCache := r1.cache },
       [.colorChanged prev,
        .errorEv "user" ("Failed to change color to " ++ color.name) e],
       r1.loads)
    | .ok _ =>
      let eng1 := { eng with currentState := { eng.currentState with strap := "selected" },
                             textureCache := r1.cache }
      let r2 := applyStrapConfiguration ext eng1.config eng1.materials
                  eng1.currentState r1.cache "selected"
      match r2.res with
      | .ok _ =>
        ({ eng1 with textureCache := r2.cache },
         [.strapChanged "selected"], r1.loads ++ r2.loads)
      | .error e =>
        ({ eng1 with currentState := { eng1.currentState with color := prev },
                     textureCache := r2.cache },
         [.colorChanged prev,
          .errorEv "user" ("Failed to change color to " ++ color.name) e],
         r1.loads ++ r2.loads)

/-- A `changeColor(colorId)` call run to completion in isolation:
synchronous prefix followed by its continuation. -/
def changeColorSettled (ext : Ext) (eng : Engine) (colorId : String) :
    Engine × List Event × List String :=
  match syncChangeColor eng colorId with
  | (e1, ev1, p) =>
    match contChangeColor ext e1 p with
    | (e2, ev2, l) => (e2, ev1 ++ ev2, l)

/-- Pending part of a `changeStrap` call after its synchronous prefix. -/
inductive StrapPending where
  | idle
  | started (strapId : String)
  deriving Repr, DecidableEq

/-- Synchronous prefix of `changeStrap(strapId)`: unknown ids log and
return; otherwise the state is updated before the texture application. -/
def syncChangeStrap (eng : Engine) (strapId : String) :
    Engine × List Event × StrapPending :=
  match eng.config.straps.find? (fun s => s.id == strapId) with
  | none => (eng, [], .idle)
  | some _ =>
    ({ eng with currentState := { eng.currentState with strap := strapId } },
     [], .started strapId)

/-- Continuation of `changeStrap`: applies the strap configuration and
emits `strapChanged` on success; failures are logged and swallowed with
no rollback (the color/strap asymmetry of the source). -/
def contChangeStrap (ext : Ext) (eng : Engine) : StrapPending → Engine × List Event × List String
  | .idle => (eng, [], [])
  | .started sid =>
    let r := applyStrapConfiguration ext eng.config eng.materials
               eng.currentState eng.textureCache sid
    match r.res with
    | .ok _ => ({ eng with textureCache := r.cache }, [.strapChanged sid], r.loads)
    | .error _ => ({ eng with textureCache := r.cache }, [], r.loads)

/-- A `changeStrap(strapId)` call run to completion in isolation. -/
def changeStrapSettled (ext : Ext) (eng : Engine) (strapId : String) :
    Engine × List Event × List String :=
  match syncChangeStrap eng strapId with
  | (e1, ev1, p) =>
    match contChangeStrap ext e1 p with
    | (e2, ev2, l) => (e2, ev1 ++ ev2, l)

/-- `changeEnvironment(environmentId)`: fully synchronous; unknown ids
log and return, otherwise the state is updated, the active backdrop
element is toggled (DOM only, not tracked) and `environmentChanged`
fires. -/
def changeEnvironment (eng : Engine) (environmentId : String) : Engine × List Event :=
  match eng.config.environments.find? (fun e => e.id == environmentId) with
  | none => (eng, [])
  | some _ =>
    ({ eng with currentState := { eng.currentState with environment := environmentId } },
     [.environmentChanged environmentId])

/-- `getState()`: a snapshot copy of the selection state. -/
def getState (eng : Engine) : SelectionState := eng.currentState

/-- Synchronous prefix of `changeColor` for a possibly-undefined
argument (`config.defaultColor || config.defaults?.color` can be
`undefined`, in which case the lookup inside `changeColor` fails). -/
def syncChangeColorArg (eng : Engine) : Option String → Engine × List Event × ColorPending
  | none => (eng, [], .idle)
  | some cid => syncChangeColor eng cid

/-- Synchronous prefix of `changeStrap` for a possibly-undefined
argument. -/
def syncChangeStrapArg (eng : Engine) : Option String → Engine × List Event × StrapPending
  | none => (eng, [], .idle)
  | some sid => syncChangeStrap eng sid

/-- `changeEnvironment` for a possibly-undefined argument. -/
def changeEnvironmentArg (eng : Engine) : Option String → Engine × List Event
  | none => (eng, [])
  | some eid => changeEnvironment eng eid

/-- The id `reset()` passes to `changeColor`:
`config.defaultColor || config.defaults?.color`. -/
def resetColorArg (cfg : Config) : Option String :=
  match cfg.defaultColor with
  | some c => some c
  | none => match cfg.defaults with
    | some d => d.color
    | none => none

/-- The id `reset()` passes to `changeStrap`. -/
def resetStrapArg (cfg : Config) : Option String :=
  match cfg.defaultStrap with
  | some s => some s
  | none => match cfg.defaults with
    | some d => d.strap
    | none => none

/-- The id `reset()` passes to `changeEnvironment`. -/
def resetEnvArg (cfg : Config) : Option String :=
  match cfg.defaultEnvironment with
  | some e => some e
  | none => match cfg.defaults with
    | some d => d.environment
    | none => none

/-- `reset()` together with everything it starts, settled:
`changeColor`, `changeStrap` (both `async`, invoked without `await`)
and the synchronous `changeEnvironment` run their synchronous prefixes
in program order, the `reset` event fires with the live state at that
moment, and then the pending continuations run (see the interleaving
note in the module docstring). -/
def resetSettled (ext : Ext) (eng : Engine) : Engine × List Event × List String :=
  let s1 := syncChangeColorArg eng (resetColorArg eng.config)
  let s2 := syncChangeStrapArg s1.1 (resetStrapArg eng.config)
  let s3 := changeEnvironmentArg s2.1 (resetEnvArg eng.config)
  let ev4 := [Event.resetEv s3.1.currentState.color s3.1.currentState.strap
                s3.1.currentState.environment]
  let c1 := contChangeColor ext s3.1 s1.2.2
  let c2 := contChangeStrap ext c1.1 s2.2.2
  (c2.1, s1.2.1 ++ s2.2.1 ++ s3.2 ++ ev4 ++ c1.2.1 ++ c2.2.1, c1.2.2 ++ c2.2.2)

/-- The query parameters consumed by `applyURLParameters` (absence of a
key models `params.has(...) === false`). -/
structure URLParams where
  color : Option String
  strap : Option String
  environment : Option String
  deriving Repr, DecidableEq

/-- `getShareURL()`: the current selection state serialized as query
parameters on the current page location (`URLSearchParams` enumerates
the state's fields in insertion order: color, strap, environment; the
ids used by the configuration need no percent-encoding). -/
def getShareURL (origin pathname : String) (st : SelectionState) : String :=
  origin ++ pathname ++ "?color=" ++ st.color ++ "&strap=" ++ st.strap ++
    "&environment=" ++ st.environment

/-- The query parameters carried by `getShareURL()`'s output: all three
keys present, valued by the serialized state. -/
def shareParams (st : SelectionState) : URLParams :=
  ⟨some st.color, some st.strap, some st.environment⟩

/-- `XRUpgradeConfigurator.applyURLParameters()` restricted to the
engine-facing parameters (the `mobile` and `ar` branches touch only the
DOM and the AR hand-off), settled: the unawaited `changeColor` and
`changeStrap` run their synchronous prefixes, the synchronous
`changeEnvironment` runs, then the continuations. -/
def applyURLParametersSettled (ext : Ext) (eng : Engine) (p : URLParams) :
    Engine × List Event × List String :=
  let s1 := syncChangeColorArg eng p.color
  let s2 := syncChangeStrapArg s1.1 p.strap
  let s3 := changeEnvironmentArg s2.1 p.environment
  let c1 := contChangeColor ext s3.1 s1.2.2
  let c2 := contChangeStrap ext c1.1 s2.2.2
  (c2.1, s1.2.1 ++ s2.2.1 ++ s3.2 ++ c1.2.1 ++ c2.2.1, c1.2.2 ++ c2.2.2)

/-- `getShareURL()` followed by feeding its query parameters back
through the orchestrator's URL-application logic. -/
def shareRoundTrip (ext : Ext) (eng : Engine) : Engine × List Event × List String :=
  applyURLParametersSettled ext eng (shareParams eng.currentState)

/-- The loaded model as the engine observes it: the set of material
names that `model.getMaterialByName` resolves. -/
structure ModelHandle where
  materialNames : List String
  deriving Repr, DecidableEq

/-- `model.getMaterialByName(name)` of the external viewer. -/
def getMaterialByName (m : ModelHandle) (name : String) : Option String :=
  if m.materialNames.contains name then some name else none

/-- `setupMaterialReferences()`: resolves the three configured material
names against the loaded model; sets `this.materials` only when all
three resolve, otherwise logs (`Failed to find required materials`) and
leaves the previous value; never throws (its body is wrapped in a
`try`/`catch` that only logs). -/
def setupMaterialReferences (names : MaterialNames) (model : Option ModelHandle)
    (prev : Option Materials) : Option Materials :=
  match model with
  | none => prev
  | some m =>
    match getMaterialByName m names.primary, getMaterialByName m names.secondary,
        getMaterialByName m names.accent with
    | some p, some s, some a => some ⟨p, s, a⟩
    | _, _, _ => prev

/-- `applyInitialConfiguration()`: skips entirely when the material
references are missing; otherwise applies the current color's textures
(when the color resolves) and then the current strap configuration,
catching and logging any failure. -/
def applyInitialConfiguration (ext : Ext) (eng : Engine) : Engine :=
  match eng.materials with
  | none => eng
  | some _ =>
    match eng.config.colors.find? (fun c => c.id == eng.currentState.color) with
    | some c =>
      let r1 := applyColorTextures ext eng.materials eng.textureCache c
      match r1.res with
      | .error _ => { eng with textureCache := r1.cache }
      | .ok _ =>
        let r2 := applyStrapConfiguration ext eng.config eng.materials
                    eng.currentState r1.cache eng.currentState.strap
        { eng with textureCache := r2.cache }
    | none =>
      let r2 := applyStrapConfiguration ext eng.config eng.materials
                  eng.currentState eng.textureCache eng.currentState.strap
      { eng with textureCache := r2.cache }

/-- Outcome of the engine's async `initialize(container)` call as it
settles: the engine state, the events it emitted on its own promise
chain, and the propagated error when it rejects. -/
structure InitOutcome where
  engine : Engine
  events : List Event
  thrown : Option String
  deriving Repr, DecidableEq

/-- `initialize(container)` settled, starting from the point where the
model either loaded (`some` handle) or failed to load/timed out
(`none`, covering `waitForModelLoad`'s rejection and the earlier
library/container failures).  On a loaded model it resolves material
references, sets `isReady := true` inside `startTexturePreloading`
(that method's re-entrancy guard flag), runs
`applyInitialConfiguration`, sets `isReady := true` and emits the
`initialized` event; material-resolution failure does not interrupt
this chain.  On a load failure the `catch` sets `isReady := false` and
rethrows, and no `initialized` event fires.  The background preload
task scheduled by `startTexturePreloading` runs after `initialize`
settles and is not part of this outcome. -/
def initEngineSettled (eng : Engine) (model : Option ModelHandle) (ext : Ext) : InitOutcome :=
  match model with
  | none => ⟨{ eng with isReady := false }, [], some "Model load failed"⟩
  | some m =>
    let mats := setupMaterialReferences eng.config.product.materials (some m) eng.materials
    let engA := { eng with materials := mats, isReady := true }
    let engB := applyInitialConfiguration ext engA
    ⟨{ engB with isReady := true }, [Event.initDone], none⟩

end Configurator

namespace DeviceDetection

/-- Lower-case a character (ASCII, which covers every pattern the
device sniffing compares against). -/
def lcChar (c : Char) : Char :=
  if 'A' ≤ c ∧ c ≤ 'Z' then Char.ofNat (c.toNat + 32) else c

/-- Lower-case a string as a character list. -/
def lower (s : String) : List Char := s.data.map lcChar

/-- Whether `pat` starts the character list `s`. -/
def strStarts : List Char → List Char → Bool
  | [], _ => true
  | _ :: _, [] => false
  | a :: as, b :: bs => a == b && strStarts as bs

/-- Whether `pat` occurs anywhere in the character list `s` (the
substring test behind the source's literal-alternation regexes). -/
def strHas (s pat : List Char) : Bool :=
  strStarts pat s ||
    match s with
    | [] => false
    | _ :: rest => strHas rest pat

/-- Whether any of the given lowercase literals occurs in `s`
lower-cased (a case-insensitive alternation regex test). -/
def anyPattern (s : String) (pats : List String) : Bool :=
  pats.any (fun p => strHas (lower s) p.data)

/-- The host environment as the prober observes it.  `uaOSMatch` and
`uaAndroidMatch` are the results of the browser's regex captures
`/OS (\d+)_/` and `/Android (\d+(\.\d+)?)/` over the user agent
(external primitives of the host's regex engine). -/
structure Host where
  protocol : String
  hostname : String
  innerWidth : Nat
  userAgent : String
  platform : String
  maxTouchPoints : Nat
  touchEventInWindow : Bool
  xrInNavigator : Bool
  xrRequestSession : Bool
  webkitMessageHandlers : Bool
  webkitStandalone : Bool
  webkitArkitHandler : Bool
  androidInterface : Bool
  uaOSMatch : Option Nat
  uaAndroidMatch : Option ℚ

/-- `isMobile()`: small viewport, or a mobile user-agent pattern, or a
touch device. -/
def isMobile (h : Host) : Bool :=
  decide (h.innerWidth ≤ 768) ||
    anyPattern h.userAgent
      ["android", "webos", "iphone", "ipad", "ipod", "blackberry", "iemobile",
       "opera mini"] ||
    h.touchEventInWindow

/-- `isTablet()`: viewport strictly between the mobile breakpoint and
1024. -/
def isTablet (h : Host) : Bool :=
  decide (768 < h.innerWidth) && decide (h.innerWidth ≤ 1024)

/-- `isDesktop()`. -/
def isDesktop (h : Host) : Bool :=
  !isMobile h && !isTablet h

/-- `getDeviceType()`: the mobile check is evaluated first and
short-circuits. -/
def getDeviceType (h : Host) : String :=
  if isMobile h then "mobile"
  else if isTablet h then "tablet"
  else "desktop"

/-- `isiOS()`. -/
def isiOS (h : Host) : Bool :=
  anyPattern h.userAgent ["iphone", "ipad", "ipod"] ||
    (lower h.platform == "macintel".data && decide (1 < h.maxTouchPoints))

/-- `isAndroid()`: an android user agent that is not Chrome. -/
def isAndroid (h : Host) : Bool :=
  anyPattern h.userAgent ["android"] && !anyPattern h.userAgent ["chrome"]

/-- `getIOSVersion()`: the user-agent capture when it matches, then the
webkit feature probes, then the WebXR probe, else 0. -/
def getIOSVersion (h : Host) : Nat :=
  if !isiOS h then 0
  else match h.uaOSMatch with
    | some v => v
    | none =>
      if h.webkitMessageHandlers then 12
      else if h.webkitStandalone then 11
      else if h.xrInNavigator then 12
      else 0

/-- `getAndroidVersion()` (a float in the source, parsed with
`parseFloat`; modelled as a rational). -/
def getAndroidVersion (h : Host) : ℚ :=
  if !isAndroid h then 0
  else match h.uaAndroidMatch with
    | some v => v
    | none =>
      if h.xrInNavigator then 7
      else if h.androidInterface then 7
      else 0

/-- `hasARCore()`. -/
def hasARCore (h : Host) : Bool :=
  if !isAndroid h then false
  else if getAndroidVersion h < 7 then false
  else anyPattern h.userAgent ["chrome"] || anyPattern h.userAgent ["samsung"]

/-- `hasARKit()`. -/
def hasARKit (h : Host) : Bool :=
  if !isiOS h then false
  else if getIOSVersion h < 12 then false
  else h.xrInNavigator || (h.webkitMessageHandlers && h.webkitArkitHandler)

/-- `getARMode()`. -/
def getARMode (h : Host) : Option String :=
  if isiOS h then some "quick-look"
  else if isAndroid h then some "scene-viewer"
  else if h.xrInNavigator then some "webxr"
  else none

/-- `getCapabilities()` (the echoed `userAgent`/`platform`/`vendor`
strings are pass-throughs of host fields and are not repeated here). -/
structure Capabilities where
  isMobile : Bool
  isiOS : Bool
  isAndroid : Bool
  isHTTPS : Bool
  hasWebXR : Bool
  hasARCore : Bool
  hasARKit : Bool
  iosVersion : Nat
  androidVersion : ℚ
  deriving Repr, DecidableEq

/-- `isMobileDevice()`: the keyword list probed by
`getCapabilities().isMobile`. -/
def isMobileDevice (h : Host) : Bool :=
  anyPattern h.userAgent
    ["android", "webos", "iphone", "ipad", "ipod", "blackberry", "iemobile",
     "opera mini", "mobile safari"]

/-- `getCapabilities()`. -/
def getCapabilities (h : Host) : Capabilities where
  isMobile := isMobileDevice h
  isiOS := isiOS h
  isAndroid := isAndroid h
  isHTTPS := h.protocol == "https:" || h.hostname == "localhost"
  hasWebXR := h.xrInNavigator && h.xrRequestSession
  hasARCore := hasARCore h
  hasARKit := hasARKit h
  iosVersion := getIOSVersion h
  androidVersion := getAndroidVersion h

/-- The record `checkARSupport()` resolves with (the `capabilities`
echo field is `getCapabilities` of the host and is kept alongside). -/
structure ARSupport where
  supported : Bool
  mode : Option String
  reason : Option String
  capabilities : Capabilities
  deriving Repr, DecidableEq

/-- `checkARSupport()`: fails closed with a human-readable reason on
every negative path; synchronous and total (the `async` wrapper never
rejects). -/
def checkARSupport (h : Host) : ARSupport :=
  let caps := getCapabilities h
  if !caps.isHTTPS then
    ⟨false, none, some "AR requires HTTPS connection", caps⟩
  else if !caps.isiOS && !caps.isAndroid then
    ⟨false, none, some "AR is only supported on iOS and Android devices", caps⟩
  else if caps.isiOS && caps.iosVersion < 12 then
    ⟨false, none, some "AR requires iOS 12 or later", caps⟩
  else if caps.isAndroid && caps.androidVersion < 7 then
    ⟨false, none, some "AR requires Android 7.0 or later", caps⟩
  else if caps.hasWebXR || caps.hasARCore || caps.hasARKit then
    ⟨true, getARMode h, none, caps⟩
  else
    ⟨false, none, some "AR not supported by this browser or device", caps⟩

end DeviceDetection

namespace EventBus

/-- A subscribed callback: an identity and its behavior on a payload
(`Except.error` models the callback throwing). -/
def Callback := Nat × (String → Except String Unit)

/-- The engine's listener map (`this.eventListeners`): event name to
callback array, in subscription order. -/
abbrev Listeners := List (String × List Callback)

/-- Replace the callback array stored under an existing event name
(JS `Map.get(event).push(...)` mutates the stored array). -/
def setEntry : Listeners → String → List Callback → Listeners
  | [], ev, v => [(ev, v)]
  | (k, old) :: rest, ev, v =>
    if k == ev then (ev, v) :: rest else (k, old) :: setEntry rest ev v

/-- Lookup of an event's callback array. -/
def lookupEv : Listeners → String → Option (List Callback)
  | [], _ => none
  | (k, v) :: rest, ev => if k == ev then some v else lookupEv rest ev

/-- `subscribe(event, callback)`: creates the array when absent, then
appends the callback. -/
def subscribe (ls : Listeners) (ev : String) (cb : Callback) : Listeners :=
  match lookupEv ls ev with
  | some cbs => setEntry ls ev (cbs ++ [cb])
  | none => ls ++ [(ev, [cb])]

/-- `notifyListeners(event, data)`: invokes every callback subscribed
to the event, in order, wrapping each invocation in a `try`/`catch`
that only logs — a throwing callback stops neither the iteration nor
`notifyListeners` itself.  The result records each invocation and its
outcome; an event with no subscribers yields no invocations. -/
def notifyListeners (ls : Listeners) (ev : String) (data : String) :
    List (Nat × Except String Unit) :=
  match lookupEv ls ev with
  | some cbs => cbs.map (fun cb => (cb.1, cb.2 data))
  | none => []

end EventBus

namespace Configurator

/-- A red color entry used by the concrete scenarios. -/
def cRed : Color :=
  ⟨"red", "Bahia Red", ⟨"textures/red_primary.jpg", "textures/red_accent.jpg",
    "textures/red_roughness.jpg"⟩⟩

/-- A blue color entry used by the concrete scenarios. -/
def cBlue : Color :=
  ⟨"blue", "Sky Blue", ⟨"textures/blue_primary.jpg", "textures/blue_accent.jpg",
    "textures/blue_roughness.jpg"⟩⟩

/-- The dynamic strap entry (id `"selected"`, no fixed texture). -/
def sSelected : Strap := ⟨"selected", "Match Color", none⟩

/-- A fixed-texture strap entry. -/
def sLeather : Strap := ⟨"leather", "Leather", some "textures/leather.jpg"⟩

/-- Two environment entries. -/
def eStudio : Environment := ⟨"studio", "Studio", "#ffffff"⟩

/-- Second environment entry. -/
def eBeach : Environment := ⟨"beach", "Beach", "#a0d8f0"⟩

/-- Material slot names of the test product. -/
def names0 : MaterialNames := ⟨"Mat_Primary", "Mat_Secondary", "Mat_Accent"⟩

/-- Test product. -/
def product0 : Product := ⟨"Weekender", "models/bag.glb", names0⟩

/-- A configuration whose declared default strap is the dynamic strap. -/
def cfg0 : Config :=
  ⟨product0, [cRed, cBlue], [sSelected, sLeather], [eStudio, eBeach],
   some "red", some "selected", some "studio", none⟩

/-- A configuration whose declared default strap is a fixed strap. -/
def cfgFix : Config :=
  ⟨product0, [cRed, cBlue], [sSelected, sLeather], [eStudio, eBeach],
   some "red", some "leather", some "studio", none⟩

/-- Resolved material references of the test model. -/
def mats0 : Materials := ⟨"Mat_Primary", "Mat_Secondary", "Mat_Accent"⟩

/-- A texture oracle on which every load resolves (to a handle derived
from the URL length) and every slot assignment succeeds. -/
def ext0 : Ext := ⟨fun u => some u.length, fun _ => true⟩

/-- A texture oracle on which every load rejects but slot assignments
succeed. -/
def extFail : Ext := ⟨fun _ => none, fun _ => true⟩

/-- A ready engine over `cfg0` in its default selection state. -/
def engRed : Engine :=
  ⟨cfg0, ⟨"red", "selected", "studio"⟩, [], some mats0, true⟩

/-- A ready engine over `cfgFix`, after some prior interaction. -/
def engFix : Engine :=
  ⟨cfgFix, ⟨"blue", "selected", "beach"⟩, [], some mats0, true⟩

/-- An engine whose material references were never resolved. -/
def engNoMats : Engine :=
  ⟨cfg0, ⟨"red", "selected", "studio"⟩, [], none, false⟩

/-- An engine over `cfgFix` with prior interaction and missing material
references, so the change operations restarted by `reset()` fail. -/
def engFixNoMats : Engine :=
  ⟨cfgFix, ⟨"blue", "selected", "beach"⟩, [], none, true⟩

/-! ## Helper lemmas -/

/-- With material references present and every external slot
assignment succeeding, `applyColorTextures` returns normally. -/
theorem applyColorTextures_ok (ext : Ext) (m : Materials)
    (cache : List (String × Nat)) (c : Color)
    (hset : ∀ t, ext.setTexture t = true) :
    (applyColorTextures ext (some m) cache c).res = .ok () := by
  simp [applyColorTextures, hset]

/-- With material references present and every external slot
assignment succeeding, `applyStrapConfiguration` returns normally. -/
theorem applyStrapConfiguration_ok (ext : Ext) (cfg : Config) (m : Materials)
    (st : SelectionState) (cache : List (String × Nat)) (sid : String)
    (hset : ∀ t, ext.setTexture t = true) :
    (applyStrapConfiguration ext cfg (some m) st cache sid).res = .ok () := by
  unfold applyStrapConfiguration
  dsimp only
  split
  · simp [hset]
  · rfl

/-- The continuation of `changeStrap` never touches the selection
state. -/
theorem contChangeStrap_state (ext : Ext) (eng : Engine) (p : StrapPending) :
    (contChangeStrap ext eng p).1.currentState = eng.currentState := by
  cases p with
  | idle => rfl
  | started sid =>
    unfold contChangeStrap
    dsimp only
    split <;> rfl

/-- The selection state `reset()` settles on, for declared defaults
that resolve in the Configuration, in every outcome of the two texture
steps of the restarted `changeColor`: on full success the strap is
forced to `"selected"`; when the color-texture step throws, the color
rolls back to the prior color while the strap keeps the default the
synchronous `changeStrap` prefix wrote; when only the forced strap
re-application throws, the color rolls back and the strap stays
`"selected"`. -/
theorem resetSettled_getState (ext : Ext) (eng : Engine) (dc ds de : String)
    (c : Color) (s : Strap) (envE : Environment)
    (hdc : resetColorArg eng.config = some dc)
    (hc : eng.config.colors.find? (fun x => x.id == dc) = some c)
    (hds : resetStrapArg eng.config = some ds)
    (hs : eng.config.straps.find? (fun x => x.id == ds) = some s)
    (hde : resetEnvArg eng.config = some de)
    (he : eng.config.environments.find? (fun x => x.id == de) = some envE) :
    getState (resetSettled ext eng).1 =
      (match (applyColorTextures ext eng.materials eng.textureCache c).res with
       | .error _ => ⟨eng.currentState.color, ds, de⟩
       | .ok _ =>
         match (applyStrapConfiguration ext eng.config eng.materials
                 ⟨dc, "selected", de⟩
                 (applyColorTextures ext eng.materials eng.textureCache c).cache
                 "selected").res with
         | .ok _ => ⟨dc, "selected", de⟩
         | .error _ => ⟨eng.currentState.color, "selected", de⟩) := by
  unfold resetSettled getState
  rw [hdc, hds, hde]
  unfold syncChangeColorArg syncChangeStrapArg changeEnvironmentArg
  unfold syncChangeColor syncChangeStrap changeEnvironment
  dsimp only
  rw [hc]
  dsimp only
  rw [hs]
  dsimp only
  rw [he]
  dsimp only
  rw [contChangeStrap_state]
  unfold contChangeColor
  dsimp only
  cases hA : (applyColorTextures ext eng.materials eng.textureCache c).res with
  | error e => rfl
  | ok u =>
    dsimp only
    cases hB : (applyStrapConfiguration ext eng.config eng.materials
        ⟨dc, "selected", de⟩
        (applyColorTextures ext eng.materials eng.textureCache c).cache
        "selected").res with
    | ok v => rfl
    | error e => rfl

/-- A cache hit leaves the cache untouched and triggers no load. -/
theorem getTexture_hit (ext : Ext) (cache : List (String × Nat)) (url : String) (t : Nat)
    (h : cacheLookup cache url = some t) :
    getTexture ext cache url = ⟨some t, cache, []⟩ := by
  unfold getTexture
  rw [h]

/-- With all three of a color's textures cached, `applyColorTextures`
succeeds without touching the cache and without triggering a load. -/
theorem applyColorTextures_cached (ext : Ext) (m : Materials)
    (cache : List (String × Nat)) (c : Color) (tp ta tr : Nat)
    (hset : ∀ t, ext.setTexture t = true)
    (h1 : cacheLookup cache c.textures.primary = some tp)
    (h2 : cacheLookup cache c.textures.accent = some ta)
    (h3 : cacheLookup cache c.textures.roughness = some tr) :
    applyColorTextures ext (some m) cache c = ⟨.ok (), cache, []⟩ := by
  unfold applyColorTextures
  rw [getTexture_hit ext cache _ tp h1]
  dsimp only
  rw [getTexture_hit ext cache _ ta h2]
  dsimp only
  rw [getTexture_hit ext cache _ tr h3]
  simp [hset]

/-- With the current color resolvable and its accent texture cached,
`applyStrapConfiguration("selected")` succeeds without touching the
cache and without triggering a load. -/
theorem applyStrapSelected_cached (ext : Ext) (cfg : Config) (m : Materials)
    (st : SelectionState) (cache : List (String × Nat)) (c : Color) (ta : Nat)
    (hset : ∀ t, ext.setTexture t = true)
    (hcol : cfg.colors.find? (fun x => x.id == st.color) = some c)
    (h2 : cacheLookup cache c.textures.accent = some ta) :
    applyStrapConfiguration ext cfg (some m) st cache "selected" = ⟨.ok (), cache, []⟩ := by
  unfold applyStrapConfiguration
  dsimp only
  rw [if_pos (show (("selected" : String) == "selected") = true from rfl)]
  rw [hcol]
  dsimp only
  rw [getTexture_hit ext cache _ ta h2]
  simp [hset]

/-- When any of the three configured material names fails to resolve
against the model, `setupMaterialReferences` leaves the previous
references. -/
theorem setupMaterialReferences_miss (names : MaterialNames) (m : ModelHandle)
    (prev : Option Materials)
    (hmiss : (m.materialNames.contains names.primary &&
              m.materialNames.contains names.secondary &&
              m.materialNames.contains names.accent) = false) :
    setupMaterialReferences names (some m) prev = prev := by
  unfold setupMaterialReferences getMaterialByName
  cases hp : m.materialNames.contains names.primary <;>
    cases hs : m.materialNames.contains names.secondary <;>
      cases ha : m.materialNames.contains names.accent <;>
        simp_all

/-- `applyInitialConfiguration` only touches the texture cache. -/
theorem applyInitialConfiguration_materials (ext : Ext) (eng : Engine) :
    (applyInitialConfiguration ext eng).materials = eng.materials := by
  unfold applyInitialConfiguration
  split
  · rfl
  · split
    · dsimp only
      split <;> rfl
    · rfl

/-! ## Claims -/

/-- C1: For every colorId present in the Configuration's colors, a call
to `changeColor(colorId)` that settles successfully (both texture
application steps return normally) leaves `getState().color` equal to
`colorId` and `getState().strap` equal to the dynamic strap identifier
`"selected"`, and emits `colorChanged(colorId)` followed by
`strapChanged("selected")`. -/
theorem claim_C1_changeColor_success (ext : Ext) (eng : Engine) (cid : String) (c : Color)
    (hfind : eng.config.colors.find? (fun x => x.id == cid) = some c)
    (h1 : (applyColorTextures ext eng.materials eng.textureCache c).res = .ok ())
    (h2 : (applyStrapConfiguration ext eng.config eng.materials
            ⟨cid, "selected", eng.currentState.environment⟩
            (applyColorTextures ext eng.materials eng.textureCache c).cache
            "selected").res = .ok ()) :
    (getState (changeColorSettled ext eng cid).1).color = cid ∧
    (getState (changeColorSettled ext eng cid).1).strap = "selected" ∧
    (changeColorSettled ext eng cid).2.1 =
      [Event.colorChanged cid, Event.strapChanged "selected"] := by
  unfold changeColorSettled syncChangeColor contChangeColor getState
  rw [hfind]
  dsimp only
  rw [h1]
  dsimp only
  rw [h2]
  exact ⟨rfl, rfl, rfl⟩

/-- C1 witness: the concrete scenario of the specification — colors
`red` and `blue`, default `red`, `changeColor("blue")`. -/
theorem claim_C1_witness :
    engRed.config.colors.find? (fun x => x.id == "blue") = some cBlue ∧
    (getState (changeColorSettled ext0 engRed "blue").1).color = "blue" ∧
    (getState (changeColorSettled ext0 engRed "blue").1).strap = "selected" ∧
    (changeColorSettled ext0 engRed "blue").2.1 =
      [Event.colorChanged "blue", Event.strapChanged "selected"] := by
  have h := claim_C1_changeColor_success ext0 engRed "blue" cBlue (by decide)
    (by decide) (by decide)
  exact ⟨by decide, h.1, h.2.1, h.2.2⟩

/-- C5: If the texture-apply step fails during `changeColor(X)` when
the current color was `Y` (either the color-texture application or the
forced strap re-application throws), then after the call settles
`getState().color` equals `Y`, a `colorChanged` event is re-emitted
carrying `Y`, and an `error` event carrying the failure detail is
emitted. -/
theorem claim_C5_rollback (ext : Ext) (eng : Engine) (cid : String) (c : Color)
    (hfind : eng.config.colors.find? (fun x => x.id == cid) = some c)
    (hfail :
      (∃ e, (applyColorTextures ext eng.materials eng.textureCache c).res = .error e) ∨
      ((applyColorTextures ext eng.materials eng.textureCache c).res = .ok () ∧
        ∃ e, (applyStrapConfiguration ext eng.config eng.materials
               ⟨cid, "selected", eng.currentState.environment⟩
               (applyColorTextures ext eng.materials eng.textureCache c).cache
               "selected").res = .error e)) :
    (getState (changeColorSettled ext eng cid).1).color = eng.currentState.color ∧
    ∃ d, (changeColorSettled ext eng cid).2.1 =
      [Event.colorChanged cid, Event.colorChanged eng.currentState.color,
       Event.errorEv "user" ("Failed to change color to " ++ c.name) d] := by
  unfold changeColorSettled syncChangeColor contChangeColor getState
  rw [hfind]
  dsimp only
  rcases hfail with ⟨e, he⟩ | ⟨hok, e, he⟩
  · rw [he]
    exact ⟨rfl, e, rfl⟩
  · rw [hok]
    dsimp only
    rw [he]
    exact ⟨rfl, e, rfl⟩

/-- C5 witness: an engine whose material references are missing, so
the texture-apply step of `changeColor("blue")` throws while the
current color is `"red"`. -/
theorem claim_C5_witness :
    engNoMats.config.colors.find? (fun x => x.id == "blue") = some cBlue ∧
    (getState (changeColorSettled ext0 engNoMats "blue").1).color = "red" ∧
    (∃ d, (changeColorSettled ext0 engNoMats "blue").2.1 =
      [Event.colorChanged "blue", Event.colorChanged "red",
       Event.errorEv "user" ("Failed to change color to " ++ cBlue.name) d]) := by
  have h := claim_C5_rollback ext0 engNoMats "blue" cBlue (by decide)
    (Or.inl ⟨"Materials not ready", by decide⟩)
  exact ⟨by decide, h.1, h.2⟩

/-- C7: For every colorId not present in the Configuration,
`changeColor(colorId)` leaves the selection state unchanged, emits no
`colorChanged` event and triggers no load — it returns normally rather
than throwing (the model functions are total, and the unknown-id
branch yields the unmodified engine); likewise `changeStrap` and
`changeEnvironment` with unknown identifiers leave the state unchanged
and emit no event. -/
theorem claim_C7_unknown_ids_noop (ext : Ext) (eng : Engine) (cid sid eid : String) :
    (eng.config.colors.find? (fun c => c.id == cid) = none →
      changeColorSettled ext eng cid = (eng, [], [])) ∧
    (eng.config.straps.find? (fun s => s.id == sid) = none →
      changeStrapSettled ext eng sid = (eng, [], [])) ∧
    (eng.config.environments.find? (fun e => e.id == eid) = none →
      changeEnvironment eng eid = (eng, [])) := by
  refine ⟨fun h => ?_, fun h => ?_, fun h => ?_⟩
  · unfold changeColorSettled syncChangeColor
    rw [h]
    rfl
  · unfold changeStrapSettled syncChangeStrap
    rw [h]
    rfl
  · unfold changeEnvironment
    rw [h]

/-- C7 witness: unknown color, strap and environment ids on the
concrete engine. -/
theorem claim_C7_witness :
    engRed.config.colors.find? (fun c => c.id == "nope") = none ∧
    engRed.config.straps.find? (fun s => s.id == "nah") = none ∧
    engRed.config.environments.find? (fun e => e.id == "nowhere") = none ∧
    changeColorSettled ext0 engRed "nope" = (engRed, [], []) ∧
    changeStrapSettled ext0 engRed "nah" = (engRed, [], []) ∧
    changeEnvironment engRed "nowhere" = (engRed, []) := by
  have h := claim_C7_unknown_ids_noop ext0 engRed "nope" "nah" "nowhere"
  exact ⟨by decide, by decide, by decide,
    h.1 (by decide), h.2.1 (by decide), h.2.2 (by decide)⟩

/-- C2 counterexample: the claim fails on both outcomes of the change
operations `reset()` starts.  Over a configuration with declared
defaults `{red, leather, studio}`: when everything succeeds (`ext0`,
materials present), `reset()` settles with `getState().strap =
"selected"`, not the declared default — the unawaited `changeColor`
continuation forces the strap axis after `changeStrap(defaultStrap)`
has already run its synchronous prefix; and when the restarted
`changeColor`'s texture step fails (missing materials), its rollback
leaves `getState().color` at the prior color `"blue"`, not the
declared default. -/
theorem claim_C2_counterexample :
    engFix.config.defaultColor = some "red" ∧
    engFix.config.defaultStrap = some "leather" ∧
    engFix.config.defaultEnvironment = some "studio" ∧
    getState (resetSettled ext0 engFix).1 ≠ ⟨"red", "leather", "studio"⟩ ∧
    getState (resetSettled ext0 engFix).1 = ⟨"red", "selected", "studio"⟩ ∧
    getState (resetSettled ext0 engFixNoMats).1 ≠ ⟨"red", "leather", "studio"⟩ ∧
    getState (resetSettled ext0 engFixNoMats).1 = ⟨"blue", "leather", "studio"⟩ := by
  exact ⟨by decide, by decide, by decide, by decide, by decide, by decide, by decide⟩

/-- C2 amended: after `reset()` and all change operations it starts
have settled, `getState().environment` equals `defaultEnvironment`,
but the other two axes depend on the restarted `changeColor`'s two
texture steps and never yield the declared defaults unless
`defaultStrap` is `"selected"`: when both steps succeed, `getState()`
is `{defaultColor, "selected", defaultEnvironment}` — the strap axis
is forced to the dynamic identifier by the unawaited `changeColor`
continuation; when the color-texture step throws, the rollback leaves
`getState()` at `{prior color, defaultStrap, defaultEnvironment}`; and
when only the forced strap re-application throws, `getState()` is
`{prior color, "selected", defaultEnvironment}`.  (The declared
defaults are assumed to resolve in the Configuration, which
`validateConfiguration` enforces at construction.) -/
theorem claim_C2_amended (ext : Ext) (eng : Engine) (dc ds de : String)
    (c : Color) (s : Strap) (envE : Environment)
    (hdc : resetColorArg eng.config = some dc)
    (hc : eng.config.colors.find? (fun x => x.id == dc) = some c)
    (hds : resetStrapArg eng.config = some ds)
    (hs : eng.config.straps.find? (fun x => x.id == ds) = some s)
    (hde : resetEnvArg eng.config = some de)
    (he : eng.config.environments.find? (fun x => x.id == de) = some envE) :
    (getState (resetSettled ext eng).1).environment = de ∧
    ((applyColorTextures ext eng.materials eng.textureCache c).res = .ok () →
      (applyStrapConfiguration ext eng.config eng.materials
          ⟨dc, "selected", de⟩
          (applyColorTextures ext eng.materials eng.textureCache c).cache
          "selected").res = .ok () →
      getState (resetSettled ext eng).1 = ⟨dc, "selected", de⟩) ∧
    (∀ e, (applyColorTextures ext eng.materials eng.textureCache c).res = .error e →
      getState (resetSettled ext eng).1 = ⟨eng.currentState.color, ds, de⟩) ∧
    (∀ e, (applyColorTextures ext eng.materials eng.textureCache c).res = .ok () →
      (applyStrapConfiguration ext eng.config eng.materials
          ⟨dc, "selected", de⟩
          (applyColorTextures ext eng.materials eng.textureCache c).cache
          "selected").res = .error e →
      getState (resetSettled ext eng).1 = ⟨eng.currentState.color, "selected", de⟩) := by
  have hg := resetSettled_getState ext eng dc ds de c s envE hdc hc hds hs hde he
  refine ⟨?_, fun hA hB => ?_, fun e hA => ?_, fun e hA hB => ?_⟩
  · rw [hg]
    cases (applyColorTextures ext eng.materials eng.textureCache c).res with
    | error e => rfl
    | ok u =>
      cases (applyStrapConfiguration ext eng.config eng.materials
          ⟨dc, "selected", de⟩
          (applyColorTextures ext eng.materials eng.textureCache c).cache
          "selected").res with
      | ok v => rfl
      | error e => rfl
  · rw [hg, hA, hB]
  · rw [hg, hA]
  · rw [hg, hA, hB]

/-- C2 witness: on the shipped-style configuration (default strap
`"selected"`, materials present, loads succeeding) `reset()` restores
the declared defaults, and on the failing engine the rollback case
applies concretely. -/
theorem claim_C2_witness :
    resetColorArg engRed.config = some "red" ∧
    getState (resetSettled ext0 engRed).1 = ⟨"red", "selected", "studio"⟩ ∧
    getState (resetSettled ext0 engFixNoMats).1 = ⟨"blue", "leather", "studio"⟩ := by
  have h1 := claim_C2_amended ext0 engRed "red" "selected" "studio" cRed sSelected
    eStudio (by decide) (by decide) (by decide) (by decide) (by decide) (by decide)
  have h2 := claim_C2_amended ext0 engFixNoMats "red" "leather" "studio" cRed
    sLeather eStudio (by decide) (by decide) (by decide) (by decide) (by decide)
    (by decide)
  exact ⟨by decide, h1.2.1 (by decide) (by decide),
    h2.2.2.1 "Materials not ready" (by decide)⟩

/-- C6 counterexample: the state with the fixed strap `"leather"` is
reachable (one successful `changeStrap` from the defaults), but the
round-trip through `getShareURL`'s parameters does not reproduce it:
the unawaited `changeColor` run by `applyURLParameters` forces the
strap back to `"selected"` after `changeStrap("leather")` has already
run its synchronous prefix. -/
theorem claim_C6_counterexample :
    getState (changeStrapSettled ext0 engRed "leather").1 = ⟨"red", "leather", "studio"⟩ ∧
    getState (shareRoundTrip ext0 (changeStrapSettled ext0 engRed "leather").1).1 ≠
      getState (changeStrapSettled ext0 engRed "leather").1 ∧
    getState (shareRoundTrip ext0 (changeStrapSettled ext0 engRed "leather").1).1 =
      ⟨"red", "selected", "studio"⟩ := by
  exact ⟨by decide, by decide, by decide⟩

/-- C6 amended: for every reachable selection state whose color and
environment identifiers resolve in the Configuration, the round-trip
of `getShareURL()` through the Orchestrator's URL-application logic
settles (successfully, on an oracle whose slot assignments succeed) on
`{color, "selected", environment}`: the color and environment axes are
reproduced, while the strap axis is forced to the dynamic identifier
`"selected"`; the full triple is reproduced exactly when the
serialized strap was `"selected"`. -/
theorem claim_C6_amended (ext : Ext) (eng : Engine) (c : Color)
    (envE : Environment) (m : Materials)
    (hc : eng.config.colors.find? (fun x => x.id == eng.currentState.color) = some c)
    (he : eng.config.environments.find?
      (fun x => x.id == eng.currentState.environment) = some envE)
    (hm : eng.materials = some m)
    (hset : ∀ t, ext.setTexture t = true) :
    getState (shareRoundTrip ext eng).1 =
      ⟨eng.currentState.color, "selected", eng.currentState.environment⟩ ∧
    (eng.currentState.strap = "selected" →
      getState (shareRoundTrip ext eng).1 = eng.currentState) := by
  have hmain : getState (shareRoundTrip ext eng).1 =
      ⟨eng.currentState.color, "selected", eng.currentState.environment⟩ := by
    unfold shareRoundTrip shareParams applyURLParametersSettled getState
    unfold syncChangeColorArg syncChangeStrapArg changeEnvironmentArg
    dsimp only
    unfold syncChangeColor syncChangeStrap changeEnvironment
    rw [hc]
    dsimp only
    cases hsf : eng.config.straps.find? (fun x => x.id == eng.currentState.strap) with
    | none =>
      dsimp only
      rw [he]
      dsimp only
      rw [contChangeStrap_state]
      unfold contChangeColor
      dsimp only
      rw [hm, applyColorTextures_ok ext m _ c hset]
      dsimp only
      rw [applyStrapConfiguration_ok ext _ m _ _ _ hset]
    | some s =>
      dsimp only
      rw [he]
      dsimp only
      rw [contChangeStrap_state]
      unfold contChangeColor
      dsimp only
      rw [hm, applyColorTextures_ok ext m _ c hset]
      dsimp only
      rw [applyStrapConfiguration_ok ext _ m _ _ _ hset]
  refine ⟨hmain, fun hstrap => ?_⟩
  rw [hmain, ← hstrap]

/-- C6 witness: from the default state, whose strap is the dynamic
`"selected"`, the round-trip reproduces the full `getState()` triple. -/
theorem claim_C6_witness :
    engRed.currentState.strap = "selected" ∧
    getState (shareRoundTrip ext0 engRed).1 = getState engRed := by
  have h := claim_C6_amended ext0 engRed cRed eStudio mats0 (by decide) (by decide)
    (by decide) (fun t => rfl)
  exact ⟨by decide, h.2 (by decide)⟩

/-- C3 counterexample: against a loaded model that resolves the
primary slot name but not the secondary or accent names, `initialize`
does not propagate an error — it settles successfully, sets `isReady`
to `true` and emits the `initialized` event, because
`setupMaterialReferences` only logs the failed resolution. -/
theorem claim_C3_counterexample :
    getMaterialByName ⟨["Mat_Primary", "Other"]⟩
      engNoMats.config.product.materials.accent = none ∧
    (initEngineSettled engNoMats (some ⟨["Mat_Primary", "Other"]⟩) ext0).engine.isReady
      = true ∧
    (initEngineSettled engNoMats (some ⟨["Mat_Primary", "Other"]⟩) ext0).events
      = [Event.initDone] ∧
    (initEngineSettled engNoMats (some ⟨["Mat_Primary", "Other"]⟩) ext0).thrown
      = none := by
  exact ⟨by decide, by decide, by decide, by decide⟩

/-- C3 amended: when any of the three named material slots cannot be
resolved against the loaded model, `setupMaterialReferences` logs and
leaves the material references unchanged (`null` on a fresh engine),
and `initialize` nevertheless completes: nothing is thrown, `isReady`
becomes `true` and the `initialized` event is emitted (texture
application is skipped or fails later instead).  Only a model-load
failure makes `initialize` propagate an error, leave `isReady` false
and emit no `initialized` event. -/
theorem claim_C3_amended (eng : Engine) (ext : Ext) (m : ModelHandle)
    (hmiss : (m.materialNames.contains eng.config.product.materials.primary &&
              m.materialNames.contains eng.config.product.materials.secondary &&
              m.materialNames.contains eng.config.product.materials.accent) = false) :
    (initEngineSettled eng (some m) ext).engine.materials = eng.materials ∧
    (initEngineSettled eng (some m) ext).engine.isReady = true ∧
    (initEngineSettled eng (some m) ext).events = [Event.initDone] ∧
    (initEngineSettled eng (some m) ext).thrown = none ∧
    initEngineSettled eng none ext =
      ⟨{ eng with isReady := false }, [], some "Model load failed"⟩ := by
  refine ⟨?_, rfl, rfl, rfl, rfl⟩
  unfold initEngineSettled
  dsimp only
  rw [applyInitialConfiguration_materials]
  dsimp only
  exact setupMaterialReferences_miss _ _ _ hmiss

/-- C3 amended witness: the fresh engine against the model missing two
of the required material names. -/
theorem claim_C3_witness :
    (⟨["Mat_Primary", "Other"]⟩ : ModelHandle).materialNames.contains
      engNoMats.config.product.materials.secondary = false ∧
    (initEngineSettled engNoMats (some ⟨["Mat_Primary", "Other"]⟩) ext0).engine.materials
      = none ∧
    initEngineSettled engNoMats none ext0 =
      ⟨{ engNoMats with isReady := false }, [], some "Model load failed"⟩ := by
  have h := claim_C3_amended engNoMats ext0 ⟨["Mat_Primary", "Other"]⟩ (by decide)
  exact ⟨by decide, h.1, h.2.2.2.2⟩

/-- C4 counterexample: calling `changeColor("blue")` twice in
succession from the default state, the second call — whose argument is
already the current color — is not a no-op at the event level: it
re-emits `colorChanged("blue")` and `strapChanged("selected")` (while
triggering no additional underlying texture load). -/
theorem claim_C4_counterexample :
    (changeColorSettled ext0 (changeColorSettled ext0 engRed "blue").1 "blue").2.1 ≠ [] ∧
    (changeColorSettled ext0 (changeColorSettled ext0 engRed "blue").1 "blue").2.1 =
      [Event.colorChanged "blue", Event.strapChanged "selected"] ∧
    (changeColorSettled ext0 (changeColorSettled ext0 engRed "blue").1 "blue").2.2 = [] := by
  exact ⟨by decide, by decide, by decide⟩

/-- C4 amended: a `changeColor(colorId)` call whose argument is
already the current color (with the strap already forced to
`"selected"` and the color's textures already cached, as a successful
prior call leaves them) leaves the entire engine — selection state and
texture cache — unchanged and triggers no additional underlying
texture load, but it is not a no-op at the event level: it re-emits
`colorChanged(colorId)` followed by `strapChanged("selected")`. -/
theorem claim_C4_amended (ext : Ext) (eng : Engine) (cid : String) (c : Color)
    (m : Materials) (tp ta tr : Nat)
    (hfind : eng.config.colors.find? (fun x => x.id == cid) = some c)
    (hcur : eng.currentState.color = cid)
    (hstrap : eng.currentState.strap = "selected")
    (hm : eng.materials = some m)
    (hset : ∀ t, ext.setTexture t = true)
    (h1 : cacheLookup eng.textureCache c.textures.primary = some tp)
    (h2 : cacheLookup eng.textureCache c.textures.accent = some ta)
    (h3 : cacheLookup eng.textureCache c.textures.roughness = some tr) :
    (changeColorSettled ext eng cid).1 = eng ∧
    (changeColorSettled ext eng cid).2.2 = [] ∧
    (changeColorSettled ext eng cid).2.1 =
      [Event.colorChanged cid, Event.strapChanged "selected"] := by
  obtain ⟨cfg, ⟨sc, ss, se⟩, cache, mats, rdy⟩ := eng
  dsimp only at hfind hcur hstrap hm h1 h2 h3
  subst hcur hstrap hm
  unfold changeColorSettled syncChangeColor contChangeColor
  rw [hfind]
  dsimp only
  rw [applyColorTextures_cached ext m cache c tp ta tr hset h1 h2 h3]
  dsimp only
  rw [applyStrapSelected_cached ext cfg m _ cache c ta hset hfind h2]
  exact ⟨rfl, rfl, rfl⟩

/-- C4 amended witness: the second of two consecutive
`changeColor("blue")` calls on the concrete engine. -/
theorem claim_C4_witness :
    (changeColorSettled ext0 (changeColorSettled ext0 engRed "blue").1 "blue").1 =
      (changeColorSettled ext0 engRed "blue").1 ∧
    (changeColorSettled ext0 (changeColorSettled ext0 engRed "blue").1 "blue").2.2 = [] := by
  have h := claim_C4_amended ext0 (changeColorSettled ext0 engRed "blue").1 "blue"
    cBlue mats0 25 24 27 (by decide) (by decide) (by decide) (by decide)
    (fun t => rfl) (by decide) (by decide) (by decide)
  exact ⟨h.1, h.2.1⟩

/-- C9: A failed underlying texture load makes `preloadTexture` (and
hence `getTexture`) return `null` instead of propagating the error,
and the failure is not stored in the texture cache, so a subsequent
request for the same URL triggers a fresh load attempt; consequently a
texture-fetch failure inside `getTexture` does not by itself make
`applyColorTextures` throw (with materials present and the external
slot assignments succeeding, it returns normally whatever the loads
do). -/
theorem claim_C9_fetch_failure (ext : Ext) (cache : List (String × Nat)) (url : String)
    (hmiss : cacheLookup cache url = none)
    (hfail : ext.createTexture url = none) :
    preloadTexture ext cache url = ⟨none, cache, [url]⟩ ∧
    getTexture ext (preloadTexture ext cache url).cache url = ⟨none, cache, [url]⟩ ∧
    (∀ (m : Materials) (c : Color), (∀ t, ext.setTexture t = true) →
      (applyColorTextures ext (some m) cache c).res = .ok ()) := by
  have hp : preloadTexture ext cache url = ⟨none, cache, [url]⟩ := by
    unfold preloadTexture
    rw [hmiss, hfail]
  refine ⟨hp, ?_, fun m c hset => applyColorTextures_ok ext m cache c hset⟩
  rw [hp]
  unfold getTexture
  rw [hmiss]
  exact hp

/-- C9 witness: an oracle on which every load rejects, an empty cache
and the red primary texture. -/
theorem claim_C9_witness :
    cacheLookup [] cRed.textures.primary = none ∧
    preloadTexture extFail [] cRed.textures.primary =
      ⟨none, [], [cRed.textures.primary]⟩ ∧
    (applyColorTextures extFail (some mats0) [] cRed).res = .ok () := by
  have h := claim_C9_fetch_failure extFail [] cRed.textures.primary rfl rfl
  exact ⟨rfl, h.1, h.2.2 mats0 cRed (fun t => rfl)⟩

end Configurator

namespace DeviceDetection

/-- Every exit of `checkARSupport` either reports support or carries a
reason string. -/
theorem checkARSupport_closed (h : Host) :
    (checkARSupport h).supported = true ∨ ((checkARSupport h).reason).isSome = true := by
  unfold checkARSupport
  dsimp only
  split
  · exact Or.inr rfl
  · split
    · exact Or.inr rfl
    · split
      · exact Or.inr rfl
      · split
        · exact Or.inr rfl
        · split
          · exact Or.inl rfl
          · exact Or.inr rfl

/-- C8: When the transport is not secure (not HTTPS and the hostname
is not the local loopback name the code recognizes),
`checkARSupport()` resolves to `supported = false` with reason exactly
`"AR requires HTTPS connection"` and no mode; on every negative path
it reports `supported = false` together with a reason string (and it
is a total function — it never throws); and `getDeviceType()` on a
viewport of width 400 returns `"mobile"`. -/
theorem claim_C8_prober (h : Host) :
    ((h.protocol == "https:" || h.hostname == "localhost") = false →
      checkARSupport h =
        ⟨false, none, some "AR requires HTTPS connection", getCapabilities h⟩) ∧
    ((checkARSupport h).supported = false →
      ((checkARSupport h).reason).isSome = true) ∧
    (h.innerWidth = 400 → getDeviceType h = "mobile") := by
  refine ⟨fun hin => ?_, fun hsup => ?_, fun h400 => ?_⟩
  · unfold checkARSupport
    dsimp only
    rw [show (getCapabilities h).isHTTPS =
          (h.protocol == "https:" || h.hostname == "localhost") from rfl, hin]
    rfl
  · rcases checkARSupport_closed h with hs | hr
    · rw [hs] at hsup
      exact absurd hsup (by simp)
    · exact hr
  · unfold getDeviceType isMobile
    rw [h400]
    rfl

/-- C8 witness: plain HTTP on a non-loopback host with a 400-pixel
viewport and no AR flags. -/
theorem claim_C8_witness :
    (("http:" == "https:" || "example.com" == "localhost") = false) ∧
    checkARSupport
        ⟨"http:", "example.com", 400, "Mozilla", "Win32", 0, false, false, false,
         false, false, false, false, none, none⟩ =
      ⟨false, none, some "AR requires HTTPS connection",
        getCapabilities
          ⟨"http:", "example.com", 400, "Mozilla", "Win32", 0, false, false, false,
           false, false, false, false, none, none⟩⟩ ∧
    getDeviceType
        ⟨"http:", "example.com", 400, "Mozilla", "Win32", 0, false, false, false,
         false, false, false, false, none, none⟩ = "mobile" := by
  have h := claim_C8_prober
    ⟨"http:", "example.com", 400, "Mozilla", "Win32", 0, false, false, false,
     false, false, false, false, none, none⟩
  exact ⟨by decide, h.1 (by decide), h.2.2 rfl⟩

end DeviceDetection

namespace EventBus

/-- Storing a new callback array under an existing (or fresh) event
name makes lookup return that array. -/
theorem lookupEv_setEntry (ls : Listeners) (ev : String) (v : List Callback) :
    lookupEv (setEntry ls ev v) ev = some v := by
  induction ls with
  | nil => simp [setEntry, lookupEv]
  | cons head tail ih =>
    obtain ⟨k, old⟩ := head
    unfold setEntry
    cases hk : k == ev with
    | true => simp [lookupEv]
    | false => simp [lookupEv, hk, ih]

/-- C10: Event emission is total and isolated: `notifyListeners`
invokes each subscribed callback in subscription order (the i-th
invocation is the i-th subscribed callback applied to the payload,
whatever the other callbacks do, so a throwing callback prevents no
later invocation), `subscribe` appends to the invocation order, and
`notifyListeners` is a total function — the per-callback `try`/`catch`
means it never throws. -/
theorem claim_C10_notify (ls : Listeners) (ev data : String)
    (cbs : List Callback) (cb : Callback)
    (h : lookupEv ls ev = some cbs) :
    notifyListeners ls ev data = cbs.map (fun c => (c.1, c.2 data)) ∧
    (∀ i : Nat, (notifyListeners ls ev data)[i]? =
      (cbs[i]?).map (fun c => (c.1, c.2 data))) ∧
    notifyListeners (subscribe ls ev cb) ev data =
      notifyListeners ls ev data ++ [(cb.1, cb.2 data)] := by
  have h1 : notifyListeners ls ev data = cbs.map (fun c => (c.1, c.2 data)) := by
    unfold notifyListeners
    rw [h]
  refine ⟨h1, fun i => ?_, ?_⟩
  · rw [h1, List.getElem?_map]
  · unfold subscribe
    rw [h]
    unfold notifyListeners
    rw [lookupEv_setEntry, h]
    simp

/-- C10 witness: a throwing first callback does not prevent the second
callback's invocation, and a subscribed third callback is appended to
the invocation order. -/
theorem claim_C10_witness :
    lookupEv [("colorChanged", [((1 : Nat), fun _ => Except.error "boom"),
        ((2 : Nat), fun _ => Except.ok ())])] "colorChanged" =
      some [((1 : Nat), fun _ => Except.error "boom"),
        ((2 : Nat), fun _ => Except.ok ())] ∧
    notifyListeners [("colorChanged", [((1 : Nat), fun _ => Except.error "boom"),
        ((2 : Nat), fun _ => Except.ok ())])] "colorChanged" "blue" =
      [(1, Except.error "boom"), (2, Except.ok ())] ∧
    notifyListeners (subscribe [("colorChanged",
        [((1 : Nat), fun _ => Except.error "boom"),
         ((2 : Nat), fun _ => Except.ok ())])] "colorChanged"
        ((3 : Nat), fun _ => Except.ok ())) "colorChanged" "blue" =
      [(1, Except.error "boom"), (2, Except.ok ()), (3, Except.ok ())] := by
  have h := claim_C10_notify
    [("colorChanged", [((1 : Nat), fun _ => Except.error "boom"),
      ((2 : Nat), fun _ => Except.ok ())])] "colorChanged" "blue"
    [((1 : Nat), fun _ => Except.error "boom"), ((2 : Nat), fun _ => Except.ok ())]
    ((3 : Nat), fun _ => Except.ok ()) rfl
  exact ⟨rfl, h.1.trans rfl, (h.2.2).trans rfl⟩

end EventBus
